import Mathlib

/-!
Shallow embedding of `src/bin/verb/src/ops/link.rs` (the `verb link`
subcommand of the Verb code generator), together with theorems checking the
specification's claims about it.

The renderers (`vhdl_to_string_bfm`, `sv_to_string_bfm`, the send/recv
routine generators, the parameter-list generators) and the `execute`
orchestration are translated directly from the Rust source.  Rust's
`String::push_str`/`format!` accumulation becomes `String` append and
`List.foldl`; `println!`-based output becomes an accumulated output string;
`todo!()` (the unimplemented Verilog arm) becomes the `ExecResult.panicked`
constructor carrying the output that was printed before the panic.
-/

namespace Verb

/-- Modelled from the spec: port/generic direction (the `Net` type of
`crate::unit` is not part of the provided sources; spec section 3 gives
`direction: {input, output}`). -/
inductive Direction where
  | input
  | output
deriving DecidableEq, BEq, Repr

/-- Modelled from the spec: a `Net` (port or generic) of `crate::unit`:
`{identifier, direction, type, mode}` per spec section 3.  The Rust getters
`get_identifier`, `get_type`, `get_mode` become field projections. -/
structure Net where
  identifier : String
  direction : Direction
  type : String
  mode : String
deriving DecidableEq, Repr

/-- `Net::is_input` of `crate::unit`, modelled from the spec's two-valued
direction. -/
def Net.is_input (n : Net) : Bool :=
  n.direction == Direction.input

/-- `Net::is_output` of `crate::unit`, modelled from the spec's two-valued
direction. -/
def Net.is_output (n : Net) : Bool :=
  n.direction == Direction.output

/-- The `Language` enum of `crate::unit` as matched in `link.rs`:
`Vhdl` (spec DialectA), `SystemVerilog` (spec DialectB), `Verilog`
(spec DialectC, unsupported). -/
inductive Language where
  | vhdl
  | systemVerilog
  | verilog
deriving DecidableEq, BEq, Repr

/-- Modelled from the spec: the `Unit` interface description of
`crate::unit` (spec section 3): unit identifier, dialect tag, ordered ports,
ordered generics.  The Rust getters become field projections. -/
structure Unit where
  identifier : String
  language : Language
  ports : List Net
  generics : List Net
deriving DecidableEq, Repr

/-- The `Link` subcommand struct from `link.rs`. -/
structure Link where
  json : Unit
  bfm : Bool
  send : Bool
  comp : Bool
  bfm_inst : Option (List String)
  exclude : List String
  list : Bool
deriving DecidableEq, Repr

/-- Result of `Link::execute`: `ok out` is a successful run that printed
`out`; `panicked out` models reaching `todo!()` ("not yet implemented",
the Verilog arms), carrying the text printed before the panic. -/
inductive ExecResult where
  | ok (out : String)
  | panicked (out : String)
deriving DecidableEq, Repr

/-- `Link::tab`: `n` repetitions of four spaces. -/
def tab (n : Nat) : String :=
  (List.range n).foldl (fun acc _ => acc ++ "    ") ""

def VHDL_HEAD_COMMENT : String :=
  "-- This procedure is automatically @generated by Verb.\n-- It is not intended for manual editing.\n"

def VHDL_HEAD_COMMENT_RECORD : String :=
  "-- This record is automatically @generated by Verb.\n-- It is not intended for manual editing.\n"

def SV_HEAD_COMMENT : String :=
  "// This task is automatically @generated by Verb.\n// It is not intended for manual editing.\n"

def SV_HEAD_COMMENT_INTERFACE : String :=
  "// This interface is automatically @generated by Verb.\n// It is not intended for manual editing.\n"

/-- `Link::vhdl_to_string_bfm`: the VHDL record type `<unit>_if` with one
field per port. -/
def vhdl_to_string_bfm (ports : List Net) (unit : String) : String :=
  let result := VHDL_HEAD_COMMENT_RECORD ++ ("type " ++ unit ++ "_if is record\n")
  let result := ports.foldl
    (fun acc n => acc ++ (tab 1 ++ n.identifier ++ ": " ++ n.type ++ ";\n")) result
  result ++ "end record;"

/-- `Link::vhdl_to_string_bfm_inst`: a VHDL signal declaration of the
record type. -/
def vhdl_to_string_bfm_inst (unit : String) (bfm_inst : String) : String :=
  "signal " ++ bfm_inst ++ ": " ++ unit ++ "_if;"

/-- `Link::sv_generate_param_inst`: the `#(...)` actual-parameter binding
list (`.g(g)` per generic), empty string when there are no generics. -/
def sv_generate_param_inst (generics : List Net) : String :=
  match generics.length with
  | 0 => ""
  | _ + 1 =>
    let size := generics.length
    let result := " #(\n"
    let result := generics.enum.foldl
      (fun acc p =>
        let acc := acc ++ (tab 1 ++ "." ++ p.2.identifier ++ "(" ++ p.2.identifier ++ ")")
        let acc := if p.1 + 1 < size then acc ++ "," else acc
        acc ++ "\n") result
    result ++ ")"

/-- `Link::sv_generate_param_decl`: the `#(...)` formal-parameter
declaration list (`<mode> <type> <identifier>` per generic), empty string
when there are no generics. -/
def sv_generate_param_decl (generics : List Net) : String :=
  match generics.length with
  | 0 => ""
  | _ + 1 =>
    let size := generics.length
    let result := " #(\n"
    let result := generics.enum.foldl
      (fun acc p =>
        let acc := acc ++ (tab 1 ++ p.2.mode ++ " " ++ p.2.type ++ " " ++ p.2.identifier)
        let acc := if p.1 + 1 < size then acc ++ "," else acc
        acc ++ "\n") result
    result ++ ")"

/-- `Link::sv_to_string_bfm_inst`: a SystemVerilog interface instance
declaration. -/
def sv_to_string_bfm_inst (unit : String) (generics : List Net) (bfm_inst : String) : String :=
  unit ++ "_if" ++ sv_generate_param_inst generics ++ " " ++ bfm_inst ++ "();"

/-- `Link::sv_to_string_bfm`: the SystemVerilog `interface <unit>_if`
declaration with one field per port. -/
def sv_to_string_bfm (ports : List Net) (generics : List Net) (unit : String) : String :=
  let result := SV_HEAD_COMMENT_INTERFACE ++
    ("interface " ++ unit ++ "_if" ++ sv_generate_param_decl generics ++ ";\n")
  let result := ports.foldl
    (fun acc n => acc ++ (tab 1 ++ n.type ++ " " ++ n.identifier ++ ";\n")) result
  result ++ "endinterface"

/-- `Link::vhdl_to_string_send`: the VHDL `send` procedure driving each
port of `bfm_inst` from one line of the input file. -/
def vhdl_to_string_send (ports : List Net) (bfm_inst : String) : String :=
  let result := VHDL_HEAD_COMMENT ++
    ("procedure send(file i: text) is\n" ++ tab 1 ++ "variable row: line;\nbegin\n" ++
      tab 1 ++ "if endfile(i) = false then\n" ++ tab 2 ++ "readline(i, row);\n")
  let result := ports.foldl
    (fun acc n => acc ++ (tab 2 ++ "drive(row, " ++ bfm_inst ++ "." ++ n.identifier ++ ");\n"))
    result
  result ++ (tab 1 ++ "end if;\nend procedure;")

/-- `Link::sv_to_string_send`: the SystemVerilog `send` task driving each
port of `bfm_inst` from one line of the input file. -/
def sv_to_string_send (ports : List Net) (bfm_inst : String) : String :=
  let result := SV_HEAD_COMMENT ++
    ("task send(int fd);\n" ++ tab 1 ++ "automatic string line;\n" ++
      tab 1 ++ "// Read next set of input values from file\n" ++
      tab 1 ++ "if(!$feof(fd)) begin\n" ++ tab 2 ++ "$fgets(line, fd);\n")
  let result := ports.foldl
    (fun acc n =>
      acc ++ (tab 2 ++ "$sscanf(parse(line), \"%b\", " ++ bfm_inst ++ "." ++ n.identifier ++ ");\n"))
    result
  result ++ (tab 1 ++ "end\nendtask")

/-- `Link::vhdl_to_string_comp`: the VHDL `recv` procedure; per port it
loads the model value and asserts equality, both inside the
`if endfile(o) = false` block. -/
def vhdl_to_string_comp (ports : List Net) (unit : String) (bfm_inst : String) : String :=
  let result := VHDL_HEAD_COMMENT ++
    ("procedure recv(file e: text; file o: text) is\n" ++ tab 1 ++ "variable row: line;\n" ++
      tab 1 ++ "variable mdl: " ++ unit ++ "_bfm;\nbegin\n" ++
      tab 1 ++ "if endfile(o) = false then\n" ++ tab 2 ++ "readline(o, row);\n")
  let result := ports.foldl
    (fun acc n =>
      (acc ++ (tab 2 ++ "load(row, mdl." ++ n.identifier ++ ");\n")) ++
        (tab 2 ++ "assert_eq(e, " ++ bfm_inst ++ "." ++ n.identifier ++ ", mdl." ++
          n.identifier ++ ", \"" ++ n.identifier ++ "\");\n"))
    result
  result ++ (tab 1 ++ "end if;\nend procedure;")

/-- `Link::sv_to_string_comp`: the SystemVerilog `recv` task; the loads sit
inside the `if(!$feof(fd))` block, the `assert_eq` checks follow after its
`end`.  The `_unit` argument is unused, as in the source. -/
def sv_to_string_comp (ports : List Net) (_unit : String) (bfm_inst : String)
    (mdl_inst : String) : String :=
  let result := SV_HEAD_COMMENT ++
    ("task recv(int fd);\n" ++ tab 1 ++ "automatic string line;\n" ++
      tab 1 ++ "// Read expected output values from file\n" ++
      tab 1 ++ "if(!$feof(fd)) begin\n" ++ tab 2 ++ "$fgets(line, fd);\n")
  let result := ports.foldl
    (fun acc n =>
      acc ++ (tab 2 ++ "$sscanf(parse(line), \"%b\", " ++ mdl_inst ++ "." ++ n.identifier ++ ");\n"))
    result
  let result := result ++ (tab 1 ++ "end\n")
  let checks := tab 1 ++ "// Compare received ouputs with expected outputs\n"
  let checks := ports.foldl
    (fun acc n =>
      acc ++ (tab 1 ++ "assert_eq(" ++ bfm_inst ++ "." ++ n.identifier ++ ", " ++
        mdl_inst ++ "." ++ n.identifier ++ ", \"" ++ n.identifier ++ "\");\n"))
    checks
  let result := result ++ checks
  result ++ (tab 0 ++ "endtask")

/-- The port filter at the top of `Link::execute`:
`ports.iter().filter(|p| exclude.contains(p.get_identifier()) == false)`. -/
def filter_ports (ports : List Net) (exclude : List String) : List Net :=
  ports.filter fun p => exclude.contains p.identifier == false

/-- `filtered_ports` as computed by `Link::execute`. -/
def Link.filtered_ports (self : Link) : List Net :=
  filter_ports self.json.ports self.exclude

/-- The `--list` branch of `Link::execute`: `print!`/`println!` calls
accumulated into one string (`println!("\n")` prints two newlines). -/
def list_output (filtered_ports : List Net) : String :=
  "input vectors order:\n " ++
    String.join ((filtered_ports.filter fun n => n.is_input).map fun n => " " ++ n.identifier) ++
    "\n\n" ++
    ("output vectors order:\n " ++
      String.join ((filtered_ports.filter fun n => n.is_output).map fun n => " " ++ n.identifier) ++
      "\n\n")

/-- The dialect dispatch of the `--if` section of `Link::execute`;
`Language::Verilog => todo!()` becomes `none`. -/
def render_bfm_artifact (lang : Language) (ports : List Net) (generics : List Net)
    (unit : String) : Option String :=
  match lang with
  | Language.vhdl => some (vhdl_to_string_bfm ports unit)
  | Language.systemVerilog => some (sv_to_string_bfm ports generics unit)
  | Language.verilog => none

/-- The dialect dispatch of the `--if-inst` section of `Link::execute`. -/
def render_bfm_inst_artifact (lang : Language) (unit : String) (generics : List Net)
    (bfm_inst : String) : Option String :=
  match lang with
  | Language.vhdl => some (vhdl_to_string_bfm_inst unit bfm_inst)
  | Language.systemVerilog => some (sv_to_string_bfm_inst unit generics bfm_inst)
  | Language.verilog => none

/-- The dialect dispatch of the `--send` section of `Link::execute`. -/
def render_send_artifact (lang : Language) (ports : List Net) (bfm_inst : String) :
    Option String :=
  match lang with
  | Language.vhdl => some (vhdl_to_string_send ports bfm_inst)
  | Language.systemVerilog => some (sv_to_string_send ports bfm_inst)
  | Language.verilog => none

/-- The dialect dispatch of the `--recv` section of `Link::execute`;
the VHDL arm takes no model-instance name, as in the source. -/
def render_comp_artifact (lang : Language) (ports : List Net) (unit : String)
    (bfm_inst : String) (mdl_inst : String) : Option String :=
  match lang with
  | Language.vhdl => some (vhdl_to_string_comp ports unit bfm_inst)
  | Language.systemVerilog => some (sv_to_string_comp ports unit bfm_inst mdl_inst)
  | Language.verilog => none

/-- The `--if` section of `Link::execute`: at most one artifact. -/
def Link.bfm_section (self : Link) : List (Option String) :=
  if self.bfm = true then
    [render_bfm_artifact self.json.language self.filtered_ports self.json.generics
      self.json.identifier]
  else []

/-- The `--if-inst` section of `Link::execute`: one artifact per requested
instance name, in the requested order. -/
def Link.inst_section (self : Link) : List (Option String) :=
  match self.bfm_inst with
  | some bfms =>
    bfms.map fun b =>
      render_bfm_inst_artifact self.json.language self.json.identifier self.json.generics b
  | none => []

/-- The `--send` section of `Link::execute`: the send routine over the
input-direction filtered ports, instance name hardcoded to `"bfm"`. -/
def Link.send_section (self : Link) : List (Option String) :=
  if self.send = true then
    [render_send_artifact self.json.language
      (self.filtered_ports.filter fun n => n.is_input) "bfm"]
  else []

/-- The `--recv` section of `Link::execute`: the receive routine over the
output-direction filtered ports, instance names hardcoded to `"bfm"` and
(for SystemVerilog) `"mdl"`. -/
def Link.comp_section (self : Link) : List (Option String) :=
  if self.comp = true then
    [render_comp_artifact self.json.language
      (self.filtered_ports.filter fun n => n.is_output) self.json.identifier "bfm" "mdl"]
  else []

/-- The artifact sequence `Link::execute` walks through, in source order. -/
def Link.artifact_list (self : Link) : List (Option String) :=
  self.bfm_section ++ self.inst_section ++ self.send_section ++ self.comp_section

/-- The printing loop of `Link::execute`: before each artifact (after the
first successfully printed one, tracked by `space_next_display`) a separator
`println!()` emits one newline; each artifact is printed with
`println!("{}", result)`, i.e. followed by one newline; reaching a `none`
(the `todo!()` arms) panics, keeping the output printed so far. -/
def print_artifacts : String → Bool → List (Option String) → ExecResult
  | out, _, [] => ExecResult.ok out
  | out, space_next_display, a :: rest =>
    let out := if space_next_display then out ++ "\n" else out
    match a with
    | none => ExecResult.panicked out
    | some s => print_artifacts (out ++ s ++ "\n") true rest

/-- `Link::execute`: filter the ports, handle `--list` (early return),
otherwise print the selected artifacts in fixed order. -/
def Link.execute (self : Link) : ExecResult :=
  if self.list = true then
    ExecResult.ok (list_output self.filtered_ports)
  else
    print_artifacts "" false self.artifact_list

/-- Entries joined with a comma before each newline except the last one:
the shape produced by the parameter-list folds. -/
def commaJoin : List String → String
  | [] => ""
  | [x] => x ++ "\n"
  | x :: y :: rest => x ++ ",\n" ++ commaJoin (y :: rest)

/-- Strings joined with a separator between consecutive entries, nothing
around the whole sequence. -/
def sepJoin (sep : String) : List String → String
  | [] => ""
  | [x] => x
  | x :: y :: rest => x ++ sep ++ sepJoin sep (y :: rest)

/-- `p` is a prefix of `l` (executable, on character lists). -/
def prefixCheck : List Char → List Char → Bool
  | [], _ => true
  | _ :: _, [] => false
  | a :: as, b :: bs => a == b && prefixCheck as bs

/-- `p` occurs somewhere inside `l` (executable, on character lists). -/
def infixCheck (p : List Char) : List Char → Bool
  | [] => prefixCheck p []
  | c :: rest => prefixCheck p (c :: rest) || infixCheck p rest

/-- `pat` occurs somewhere inside `s`. -/
def strContains (s pat : String) : Bool :=
  infixCheck pat.data s.data

/-- The suffix of `l` after the first occurrence of `p`, `none` when `p`
does not occur. -/
def afterFirst (p : List Char) : List Char → Option (List Char)
  | [] => if prefixCheck p [] then some (List.drop p.length []) else none
  | c :: rest =>
    if prefixCheck p (c :: rest) then some (List.drop p.length (c :: rest))
    else afterFirst p rest

/-- The last character of a string, if any. -/
def lastChar? (s : String) : Option Char :=
  s.data.getLast?

/-- The first character of a string, if any. -/
def headChar? (s : String) : Option Char :=
  s.data.head?

/-- The `adder` example ports of spec section 8. -/
def exPorts : List Net :=
  [⟨"clk", Direction.input, "std_logic", ""⟩,
   ⟨"a", Direction.input, "std_logic_vector(7:0)", ""⟩,
   ⟨"sum", Direction.output, "std_logic_vector(8:0)", ""⟩]

/-- The `clk` input port of the adder example. -/
def exClk : Net := ⟨"clk", Direction.input, "std_logic", ""⟩

/-- The `sum` output port of the adder example. -/
def exSum : Net := ⟨"sum", Direction.output, "std_logic_vector(8:0)", ""⟩

/-- A sample generic. -/
def exWordSize : Net := ⟨"WORD_SIZE", Direction.input, "int", "parameter"⟩

/-- The adder example interface description (DialectA = VHDL). -/
def exAdder : Unit := ⟨"adder", Language.vhdl, exPorts, []⟩

/-- The adder example retargeted at the unsupported Verilog dialect. -/
def exAdderVerilog : Unit := ⟨"adder", Language.verilog, exPorts, []⟩

/-- A `--list` invocation on the adder example. -/
def exListLink : Link := ⟨exAdder, false, false, false, none, [], true⟩

/-- An `--if --send` invocation on the adder example. -/
def exBfmSendLink : Link := ⟨exAdder, true, true, false, none, [], false⟩

/-- A `--recv` invocation on the adder example. -/
def exCompLink : Link := ⟨exAdder, false, false, true, none, [], false⟩

/-- An `--if --send --recv` invocation on the Verilog-tagged adder. -/
def exVerilogLink : Link := ⟨exAdderVerilog, true, true, true, none, [], false⟩

/-- The artifact texts of `exBfmSendLink`, in render order. -/
def exTexts : List String :=
  [vhdl_to_string_bfm (filter_ports exPorts []) "adder",
   vhdl_to_string_send ((filter_ports exPorts []).filter fun n => n.is_input) "bfm"]

end Verb

namespace Verb

theorem join_foldl (l : List String) : ∀ init : String,
    l.foldl (fun r s => r ++ s) init = init ++ String.join l := by
  induction l with
  | nil => intro init; simp [String.join, String.append_empty]
  | cons x xs ih =>
    intro init
    have hj : String.join (x :: xs) = x ++ String.join xs := by
      show (x :: xs).foldl (fun r s => r ++ s) "" = x ++ String.join xs
      rw [List.foldl_cons, String.empty_append, ih x]
    rw [List.foldl_cons, ih (init ++ x), hj, String.append_assoc]

theorem join_cons (s : String) (l : List String) :
    String.join (s :: l) = s ++ String.join l := by
  show (s :: l).foldl (fun r s => r ++ s) "" = s ++ String.join l
  rw [List.foldl_cons, String.empty_append, join_foldl]

theorem foldl_append_map {α : Type} (f : α → String) (l : List α) (init : String) :
    l.foldl (fun acc n => acc ++ f n) init = init ++ String.join (l.map f) := by
  rw [← List.foldl_map f (fun acc s => acc ++ s) l init, join_foldl]

theorem foldl_append2_map {α : Type} (f g : α → String) (l : List α) (init : String) :
    l.foldl (fun acc n => (acc ++ f n) ++ g n) init =
      init ++ String.join (l.map fun n => f n ++ g n) := by
  induction l generalizing init with
  | nil => simp [String.join, String.append_empty]
  | cons x xs ih =>
    rw [List.foldl_cons, ih]
    simp [List.map_cons, join_cons, String.append_assoc]

theorem comma_newline_merge (s : String) : ("," : String) ++ ("\n" ++ s) = ",\n" ++ s := by
  rw [← String.append_assoc]
  have h : ("," : String) ++ "\n" = ",\n" := by decide
  rw [h]

theorem enum_param_fold {α : Type} (f : α → String) (size : Nat) :
    ∀ (l : List α) (k : Nat) (init : String), k + l.length = size →
    (List.enumFrom k l).foldl
        (fun acc p => (if p.1 + 1 < size then (acc ++ f p.2) ++ "," else acc ++ f p.2) ++ "\n")
        init
      = init ++ commaJoin (l.map f) := by
  intro l
  induction l with
  | nil => intro k init _; simp [commaJoin, String.append_empty]
  | cons x xs ih =>
    intro k init hk
    match xs, ih with
    | [], _ =>
      have hsize : size = k + 1 := by simpa using hk.symm
      have hlt : ¬ (k + 1 < size) := by omega
      rw [List.enumFrom_cons, List.foldl_cons, if_neg hlt]
      simp [commaJoin, String.append_assoc]
    | y :: ys, ih =>
      have hlt : k + 1 < size := by
        simp only [List.length_cons] at hk; omega
      have hk' : (k + 1) + (y :: ys).length = size := by
        simp only [List.length_cons] at hk ⊢; omega
      rw [List.enumFrom_cons, List.foldl_cons, if_pos hlt, ih (k + 1) _ hk']
      simp only [List.map_cons, commaJoin]
      simp [String.append_assoc, comma_newline_merge]

theorem sv_generate_param_decl_nil : sv_generate_param_decl [] = "" := rfl

theorem sv_generate_param_inst_nil : sv_generate_param_inst [] = "" := rfl

theorem sv_generate_param_decl_eq (generics : List Net) (h : generics ≠ []) :
    sv_generate_param_decl generics =
      " #(\n" ++
        commaJoin (generics.map fun n => tab 1 ++ n.mode ++ " " ++ n.type ++ " " ++ n.identifier) ++
        ")" := by
  match generics, h with
  | g :: gs, _ =>
    show (List.enumFrom 0 (g :: gs)).foldl _ " #(\n" ++ ")" = _
    rw [enum_param_fold
      (fun n => tab 1 ++ n.mode ++ " " ++ n.type ++ " " ++ n.identifier)
      ((g :: gs).length) (g :: gs) 0 " #(\n" (by simp), String.append_assoc]

theorem sv_generate_param_inst_eq (generics : List Net) (h : generics ≠ []) :
    sv_generate_param_inst generics =
      " #(\n" ++
        commaJoin (generics.map fun n => tab 1 ++ "." ++ n.identifier ++ "(" ++ n.identifier ++ ")") ++
        ")" := by
  match generics, h with
  | g :: gs, _ =>
    show (List.enumFrom 0 (g :: gs)).foldl _ " #(\n" ++ ")" = _
    rw [enum_param_fold
      (fun n => tab 1 ++ "." ++ n.identifier ++ "(" ++ n.identifier ++ ")")
      ((g :: gs).length) (g :: gs) 0 " #(\n" (by simp), String.append_assoc]

end Verb

namespace Verb

theorem tab_zero : tab 0 = "" := rfl

theorem vhdl_to_string_bfm_eq (ports : List Net) (u : String) :
    vhdl_to_string_bfm ports u =
      VHDL_HEAD_COMMENT_RECORD ++ "type " ++ u ++ "_if is record\n" ++
        String.join (ports.map fun n => tab 1 ++ n.identifier ++ ": " ++ n.type ++ ";\n") ++
        "end record;" := by
  simp only [vhdl_to_string_bfm]
  rw [foldl_append_map]
  simp [String.append_assoc]

theorem sv_to_string_bfm_eq (ports generics : List Net) (u : String) :
    sv_to_string_bfm ports generics u =
      SV_HEAD_COMMENT_INTERFACE ++ "interface " ++ u ++ "_if" ++
        sv_generate_param_decl generics ++ ";\n" ++
        String.join (ports.map fun n => tab 1 ++ n.type ++ " " ++ n.identifier ++ ";\n") ++
        "endinterface" := by
  simp only [sv_to_string_bfm]
  rw [foldl_append_map]
  simp [String.append_assoc]

theorem vhdl_to_string_send_eq (ports : List Net) (b : String) :
    vhdl_to_string_send ports b =
      VHDL_HEAD_COMMENT ++ "procedure send(file i: text) is\n" ++ tab 1 ++
        "variable row: line;\nbegin\n" ++ tab 1 ++ "if endfile(i) = false then\n" ++ tab 2 ++
        "readline(i, row);\n" ++
        String.join (ports.map fun n => tab 2 ++ "drive(row, " ++ b ++ "." ++ n.identifier ++ ");\n") ++
        tab 1 ++ "end if;\nend procedure;" := by
  simp only [vhdl_to_string_send]
  rw [foldl_append_map]
  simp [String.append_assoc]

theorem sv_to_string_send_eq (ports : List Net) (b : String) :
    sv_to_string_send ports b =
      SV_HEAD_COMMENT ++ "task send(int fd);\n" ++ tab 1 ++ "automatic string line;\n" ++ tab 1 ++
        "// Read next set of input values from file\n" ++ tab 1 ++
        "if(!$feof(fd)) begin\n" ++ tab 2 ++ "$fgets(line, fd);\n" ++
        String.join (ports.map fun n =>
          tab 2 ++ "$sscanf(parse(line), \"%b\", " ++ b ++ "." ++ n.identifier ++ ");\n") ++
        tab 1 ++ "end\nendtask" := by
  simp only [sv_to_string_send]
  rw [foldl_append_map]
  simp [String.append_assoc]

theorem vhdl_to_string_comp_eq (ports : List Net) (u b : String) :
    vhdl_to_string_comp ports u b =
      VHDL_HEAD_COMMENT ++ "procedure recv(file e: text; file o: text) is\n" ++ tab 1 ++
        "variable row: line;\n" ++ tab 1 ++ "variable mdl: " ++ u ++ "_bfm;\nbegin\n" ++ tab 1 ++
        "if endfile(o) = false then\n" ++ tab 2 ++ "readline(o, row);\n" ++
        String.join (ports.map fun n =>
          tab 2 ++ "load(row, mdl." ++ n.identifier ++ ");\n" ++
            (tab 2 ++ "assert_eq(e, " ++ b ++ "." ++ n.identifier ++ ", mdl." ++ n.identifier ++
              ", \"" ++ n.identifier ++ "\");\n")) ++
        tab 1 ++ "end if;\nend procedure;" := by
  simp only [vhdl_to_string_comp]
  rw [foldl_append2_map]
  simp [String.append_assoc]

theorem sv_to_string_comp_eq (ports : List Net) (u b m : String) :
    sv_to_string_comp ports u b m =
      SV_HEAD_COMMENT ++ "task recv(int fd);\n" ++ tab 1 ++ "automatic string line;\n" ++ tab 1 ++
        "// Read expected output values from file\n" ++ tab 1 ++
        "if(!$feof(fd)) begin\n" ++ tab 2 ++ "$fgets(line, fd);\n" ++
        String.join (ports.map fun n =>
          tab 2 ++ "$sscanf(parse(line), \"%b\", " ++ m ++ "." ++ n.identifier ++ ");\n") ++
        tab 1 ++ "end\n" ++ tab 1 ++ "// Compare received ouputs with expected outputs\n" ++
        String.join (ports.map fun n =>
          tab 1 ++ "assert_eq(" ++ b ++ "." ++ n.identifier ++ ", " ++ m ++ "." ++ n.identifier ++
            ", \"" ++ n.identifier ++ "\");\n") ++
        "endtask" := by
  simp only [sv_to_string_comp]
  rw [foldl_append_map, foldl_append_map]
  simp [String.append_assoc, tab_zero, String.empty_append]

end Verb

namespace Verb

theorem lastChar?_append_lit (s t : String) (c : Char) (h : lastChar? t = some c) :
    lastChar? (s ++ t) = some c := by
  unfold lastChar? at h ⊢
  rw [String.data_append, List.getLast?_append, h]
  rfl

theorem headChar?_append (s t : String) :
    headChar? (s ++ t) = (headChar? s).or (headChar? t) := by
  unfold headChar?
  rw [String.data_append, List.head?_append]

theorem headChar?_append_lit (s t : String) (c : Char) (h : headChar? s = some c) :
    headChar? (s ++ t) = some c := by
  rw [headChar?_append, h]
  rfl

theorem lastChar?_some_ne_nil (s : String) (c : Char) (h : lastChar? s = some c) :
    s.data ≠ [] := by
  intro hd
  unfold lastChar? at h
  rw [hd] at h
  simp at h

theorem vhdl_bfm_last (ports : List Net) (u : String) :
    lastChar? (vhdl_to_string_bfm ports u) = some ';' := by
  simp only [vhdl_to_string_bfm]
  exact lastChar?_append_lit _ _ _ (by decide)

theorem vhdl_bfm_head (ports : List Net) (u : String) :
    headChar? (vhdl_to_string_bfm ports u) = some '-' := by
  rw [vhdl_to_string_bfm_eq]
  repeat apply headChar?_append_lit
  decide

theorem sv_bfm_last (ports generics : List Net) (u : String) :
    lastChar? (sv_to_string_bfm ports generics u) = some 'e' := by
  simp only [sv_to_string_bfm]
  exact lastChar?_append_lit _ _ _ (by decide)

theorem sv_bfm_head (ports generics : List Net) (u : String) :
    headChar? (sv_to_string_bfm ports generics u) = some '/' := by
  rw [sv_to_string_bfm_eq]
  repeat apply headChar?_append_lit
  decide

theorem vhdl_inst_last (u b : String) :
    lastChar? (vhdl_to_string_bfm_inst u b) = some ';' := by
  simp only [vhdl_to_string_bfm_inst]
  exact lastChar?_append_lit _ _ _ (by decide)

theorem vhdl_inst_head (u b : String) :
    headChar? (vhdl_to_string_bfm_inst u b) = some 's' := by
  simp only [vhdl_to_string_bfm_inst]
  repeat apply headChar?_append_lit
  decide

theorem sv_inst_last (u : String) (generics : List Net) (b : String) :
    lastChar? (sv_to_string_bfm_inst u generics b) = some ';' := by
  simp only [sv_to_string_bfm_inst]
  exact lastChar?_append_lit _ _ _ (by decide)

theorem sv_inst_head (u : String) (generics : List Net) (b : String) :
    headChar? (sv_to_string_bfm_inst u generics b) = (headChar? u).or (some '_') := by
  simp only [sv_to_string_bfm_inst]
  rw [headChar?_append, headChar?_append, headChar?_append, headChar?_append, headChar?_append]
  have h2 : headChar? "_if" = some '_' := by decide
  rw [h2]
  cases headChar? u <;> rfl

theorem vhdl_send_last (ports : List Net) (b : String) :
    lastChar? (vhdl_to_string_send ports b) = some ';' := by
  simp only [vhdl_to_string_send]
  exact lastChar?_append_lit _ _ _ (by decide)

theorem vhdl_send_head (ports : List Net) (b : String) :
    headChar? (vhdl_to_string_send ports b) = some '-' := by
  rw [vhdl_to_string_send_eq]
  repeat apply headChar?_append_lit
  decide

theorem sv_send_last (ports : List Net) (b : String) :
    lastChar? (sv_to_string_send ports b) = some 'k' := by
  simp only [sv_to_string_send]
  exact lastChar?_append_lit _ _ _ (by decide)

theorem sv_send_head (ports : List Net) (b : String) :
    headChar? (sv_to_string_send ports b) = some '/' := by
  rw [sv_to_string_send_eq]
  repeat apply headChar?_append_lit
  decide

theorem vhdl_comp_last (ports : List Net) (u b : String) :
    lastChar? (vhdl_to_string_comp ports u b) = some ';' := by
  simp only [vhdl_to_string_comp]
  exact lastChar?_append_lit _ _ _ (by decide)

theorem vhdl_comp_head (ports : List Net) (u b : String) :
    headChar? (vhdl_to_string_comp ports u b) = some '-' := by
  rw [vhdl_to_string_comp_eq]
  repeat apply headChar?_append_lit
  decide

theorem sv_comp_last (ports : List Net) (u b m : String) :
    lastChar? (sv_to_string_comp ports u b m) = some 'k' := by
  simp only [sv_to_string_comp]
  exact lastChar?_append_lit _ _ _ (by decide)

theorem sv_comp_head (ports : List Net) (u b m : String) :
    headChar? (sv_to_string_comp ports u b m) = some '/' := by
  rw [sv_to_string_comp_eq]
  repeat apply headChar?_append_lit
  decide

end Verb

namespace Verb

theorem join_nil : String.join [] = "" := rfl

theorem newline2_merge (s : String) : ("\n" : String) ++ ("\n" ++ s) = "\n\n" ++ s := by
  rw [← String.append_assoc]
  have h : ("\n" : String) ++ "\n" = "\n\n" := by decide
  rw [h]

theorem print_artifacts_all_some (texts : List String) :
    ∀ out : String, print_artifacts out true (texts.map some) =
      ExecResult.ok (out ++ String.join (texts.map fun t => "\n" ++ t ++ "\n")) := by
  induction texts with
  | nil => intro out; simp [print_artifacts, join_nil, String.append_empty]
  | cons t ts ih =>
    intro out
    simp only [List.map_cons, print_artifacts, if_true]
    rw [ih]
    simp [join_cons, String.append_assoc]

theorem sepJoin_newline (ts : List String) : ∀ t : String,
    sepJoin "\n\n" (t :: ts) ++ "\n" =
      t ++ "\n" ++ String.join (ts.map fun s => "\n" ++ s ++ "\n") := by
  induction ts with
  | nil => intro t; simp [sepJoin, join_nil, String.append_empty]
  | cons y ys ih =>
    intro t
    simp only [sepJoin, List.map_cons]
    rw [String.append_assoc (t ++ "\n\n") (sepJoin "\n\n" (y :: ys)) "\n", ih y]
    simp [join_cons, String.append_assoc, newline2_merge]

theorem print_artifacts_start (texts : List String) (h : texts ≠ []) :
    print_artifacts "" false (texts.map some) =
      ExecResult.ok (sepJoin "\n\n" texts ++ "\n") := by
  match texts, h with
  | t :: ts, _ =>
    simp only [List.map_cons, print_artifacts, if_false]
    rw [print_artifacts_all_some, sepJoin_newline]
    simp [String.append_assoc, String.empty_append]

theorem render_bfm_verilog (p g : List Net) (u : String) :
    render_bfm_artifact Language.verilog p g u = none := rfl

theorem render_inst_verilog (u : String) (g : List Net) (b : String) :
    render_bfm_inst_artifact Language.verilog u g b = none := rfl

theorem render_send_verilog (p : List Net) (b : String) :
    render_send_artifact Language.verilog p b = none := rfl

theorem render_comp_verilog (p : List Net) (u b m : String) :
    render_comp_artifact Language.verilog p u b m = none := rfl

theorem artifact_list_all_none (self : Link) (hlang : self.json.language = Language.verilog) :
    ∀ a ∈ self.artifact_list, a = none := by
  intro a ha
  simp only [Link.artifact_list, List.mem_append] at ha
  rcases ha with ((h | h) | h) | h
  · simp only [Link.bfm_section] at h
    split at h
    · simp only [List.mem_singleton] at h
      rw [h, hlang, render_bfm_verilog]
    · simp at h
  · simp only [Link.inst_section] at h
    split at h
    next bfms _ =>
      simp only [List.mem_map] at h
      obtain ⟨b, _, hb⟩ := h
      rw [← hb, hlang, render_inst_verilog]
    next => simp at h
  · simp only [Link.send_section] at h
    split at h
    · simp only [List.mem_singleton] at h
      rw [h, hlang, render_send_verilog]
    · simp at h
  · simp only [Link.comp_section] at h
    split at h
    · simp only [List.mem_singleton] at h
      rw [h, hlang, render_comp_verilog]
    · simp at h

theorem artifact_list_ne_nil (self : Link)
    (hsel : self.bfm = true ∨ (∃ l, self.bfm_inst = some l ∧ l ≠ []) ∨
      self.send = true ∨ self.comp = true) :
    self.artifact_list ≠ [] := by
  intro hnil
  simp only [Link.artifact_list, List.append_eq_nil] at hnil
  obtain ⟨⟨⟨h1, h2⟩, h3⟩, h4⟩ := hnil
  rcases hsel with hb | ⟨l, hl, hlne⟩ | hs | hc
  · rw [Link.bfm_section, if_pos hb] at h1
    exact List.cons_ne_nil _ _ h1
  · simp only [Link.inst_section, hl, List.map_eq_nil_iff] at h2
    exact hlne h2
  · rw [Link.send_section, if_pos hs] at h3
    exact List.cons_ne_nil _ _ h3
  · rw [Link.comp_section, if_pos hc] at h4
    exact List.cons_ne_nil _ _ h4

theorem contains_iff_mem (l : List String) (x : String) : l.contains x = true ↔ x ∈ l :=
  List.elem_iff

theorem contains_eq_of_mem_iff (l₁ l₂ : List String) (a : String) (h : a ∈ l₁ ↔ a ∈ l₂) :
    l₁.contains a = l₂.contains a := by
  cases hc : l₁.contains a with
  | false =>
    cases hc2 : l₂.contains a with
    | false => rfl
    | true =>
      have hm : a ∈ l₁ := h.mpr ((contains_iff_mem l₂ a).mp hc2)
      rw [(contains_iff_mem l₁ a).mpr hm] at hc
      exact absurd hc (by simp)
  | true =>
    have hm : a ∈ l₂ := h.mp ((contains_iff_mem l₁ a).mp hc)
    rw [(contains_iff_mem l₂ a).mpr hm]

theorem mem_filter_ports (ports : List Net) (E : List String) (p : Net) :
    p ∈ filter_ports ports E ↔ p ∈ ports ∧ ¬ p.identifier ∈ E := by
  simp only [filter_ports, List.mem_filter]
  rw [← contains_iff_mem E p.identifier]
  cases h : E.contains p.identifier <;> simp [h]

theorem filter_ports_unknown_exclusion (ports : List Net) (E : List String) (x : String)
    (hx : ∀ p ∈ ports, p.identifier ≠ x) :
    filter_ports ports (x :: E) = filter_ports ports E := by
  unfold filter_ports
  apply List.filter_congr
  intro p hp
  have hmem : p.identifier ∈ (x :: E) ↔ p.identifier ∈ E := by
    simp [List.mem_cons, hx p hp]
  rw [contains_eq_of_mem_iff (x :: E) E p.identifier hmem]

theorem is_input_eq_not_output (n : Net) : n.is_input = !n.is_output := by
  cases h : n.direction <;> simp only [Net.is_input, Net.is_output, h] <;> decide

end Verb

namespace Verb

theorem input_not_output (n : Net) (h : n.is_input = true) : n.is_output = false := by
  cases hd : n.direction
  · simp only [Net.is_output, hd]; decide
  · exfalso
    rw [Net.is_input, hd] at h
    exact absurd h (by decide)

theorem output_not_input (n : Net) (h : n.is_output = true) : n.is_input = false := by
  cases hd : n.direction
  · exfalso
    rw [Net.is_output, hd] at h
    exact absurd h (by decide)
  · simp only [Net.is_input, hd]; decide

theorem boundaries_of_chars (t : String) (c d : Char) (hc : lastChar? t = some c)
    (hd : headChar? t = some d) (hcne : c ≠ '\n') (hdne : d ≠ '\n') :
    t.data ≠ [] ∧ lastChar? t ≠ some '\n' ∧ headChar? t ≠ some '\n' := by
  refine ⟨lastChar?_some_ne_nil t c hc, ?_, ?_⟩
  · rw [hc]; intro h; exact hcne (Option.some.inj h)
  · rw [hd]; intro h; exact hdne (Option.some.inj h)

theorem artifact_text_boundaries (self : Link) (hU : headChar? self.json.identifier ≠ some '\n')
    (t : String) (ht : some t ∈ self.artifact_list) :
    t.data ≠ [] ∧ lastChar? t ≠ some '\n' ∧ headChar? t ≠ some '\n' := by
  simp only [Link.artifact_list, List.mem_append] at ht
  rcases ht with ((h | h) | h) | h
  · simp only [Link.bfm_section] at h
    split at h
    · simp only [List.mem_singleton] at h
      cases hlang : self.json.language <;> rw [hlang] at h
      · rw [render_bfm_artifact] at h
        have ht := Option.some.inj h
        rw [ht]
        exact boundaries_of_chars _ ';' '-' (vhdl_bfm_last _ _) (vhdl_bfm_head _ _)
          (by decide) (by decide)
      · rw [render_bfm_artifact] at h
        have ht := Option.some.inj h
        rw [ht]
        exact boundaries_of_chars _ 'e' '/' (sv_bfm_last _ _ _) (sv_bfm_head _ _ _)
          (by decide) (by decide)
      · exact absurd h.symm (by simp [render_bfm_artifact])
    · simp at h
  · simp only [Link.inst_section] at h
    split at h
    next bfms _ =>
      simp only [List.mem_map] at h
      obtain ⟨b, _, hb⟩ := h
      cases hlang : self.json.language <;> rw [hlang] at hb
      · rw [render_bfm_inst_artifact] at hb
        have ht := Option.some.inj hb
        rw [← ht]
        exact boundaries_of_chars _ ';' 's' (vhdl_inst_last _ _) (vhdl_inst_head _ _)
          (by decide) (by decide)
      · rw [render_bfm_inst_artifact] at hb
        have ht := Option.some.inj hb
        rw [← ht]
        have hh := sv_inst_head self.json.identifier self.json.generics b
        cases hu : headChar? self.json.identifier with
        | none =>
          rw [hu] at hh
          exact boundaries_of_chars _ ';' '_' (sv_inst_last _ _ _) hh (by decide) (by decide)
        | some c =>
          rw [hu] at hh
          have hcne : c ≠ '\n' := by
            intro hcc
            rw [hcc] at hu
            exact hU hu
          exact boundaries_of_chars _ ';' c (sv_inst_last _ _ _) hh (by decide) hcne
      · exact absurd hb (by simp [render_bfm_inst_artifact])
    next => simp at h
  · simp only [Link.send_section] at h
    split at h
    · simp only [List.mem_singleton] at h
      cases hlang : self.json.language <;> rw [hlang] at h
      · rw [render_send_artifact] at h
        have ht := Option.some.inj h
        rw [ht]
        exact boundaries_of_chars _ ';' '-' (vhdl_send_last _ _) (vhdl_send_head _ _)
          (by decide) (by decide)
      · rw [render_send_artifact] at h
        have ht := Option.some.inj h
        rw [ht]
        exact boundaries_of_chars _ 'k' '/' (sv_send_last _ _) (sv_send_head _ _)
          (by decide) (by decide)
      · exact absurd h.symm (by simp [render_send_artifact])
    · simp at h
  · simp only [Link.comp_section] at h
    split at h
    · simp only [List.mem_singleton] at h
      cases hlang : self.json.language <;> rw [hlang] at h
      · rw [render_comp_artifact] at h
        have ht := Option.some.inj h
        rw [ht]
        exact boundaries_of_chars _ ';' '-' (vhdl_comp_last _ _ _) (vhdl_comp_head _ _ _)
          (by decide) (by decide)
      · rw [render_comp_artifact] at h
        have ht := Option.some.inj h
        rw [ht]
        exact boundaries_of_chars _ 'k' '/' (sv_comp_last _ _ _ _) (sv_comp_head _ _ _ _)
          (by decide) (by decide)
      · exact absurd h.symm (by simp [render_comp_artifact])
    · simp at h

end Verb

namespace Verb

/-- C1: whenever the interface description carries the unsupported Verilog
dialect tag and the request selects at least one artifact (and is not a
`--list` request), `Link::execute` aborts with the dedicated
not-implemented failure (`todo!()`) before printing anything: no artifact
text, not even a partial one, is emitted. -/
theorem unsupported_dialect_fails_without_output (self : Link)
    (hlang : self.json.language = Language.verilog) (hlist : self.list = false)
    (hsel : self.bfm = true ∨ (∃ l, self.bfm_inst = some l ∧ l ≠ []) ∨
      self.send = true ∨ self.comp = true) :
    self.execute = ExecResult.panicked "" := by
  have hall := artifact_list_all_none self hlang
  have hne := artifact_list_ne_nil self hsel
  simp only [Link.execute, hlist]
  rw [if_neg (by simp)]
  cases h : self.artifact_list with
  | nil => exact absurd h hne
  | cons a rest =>
    have ha : a = none := hall a (by rw [h]; exact List.mem_cons_self a rest)
    rw [ha]
    simp [print_artifacts]

/-- Witness for C1: a concrete Verilog-tagged request with `--if --send
--recv` selected panics with empty output. -/
theorem unsupported_dialect_fails_without_output_witness :
    exVerilogLink.json.language = Language.verilog ∧ exVerilogLink.list = false ∧
      exVerilogLink.bfm = true ∧ exVerilogLink.execute = ExecResult.panicked "" :=
  ⟨rfl, rfl, rfl, unsupported_dialect_fails_without_output exVerilogLink rfl rfl (Or.inl rfl)⟩

/-- C5: the port filter of `Link::execute` removes exactly the ports whose
identifier is in the exclusion list, keeps every other port, preserves
relative order (the filtered sequence is a sublist of the input), silently
ignores an exclusion identifier matching no port, and the filtered sequence
is exactly what the renderers receive — e.g. the interface-type artifact
contains one field line per filtered port and nothing else. -/
theorem port_filter_correctness (ports : List Net) (E : List String) :
    (∀ p ∈ filter_ports ports E, ¬ p.identifier ∈ E) ∧
    (∀ p ∈ ports, ¬ p.identifier ∈ E → p ∈ filter_ports ports E) ∧
    (∀ p ∈ ports, p.identifier ∈ E → ¬ p ∈ filter_ports ports E) ∧
    List.Sublist (filter_ports ports E) ports ∧
    (∀ x, (∀ p ∈ ports, p.identifier ≠ x) →
      filter_ports ports (x :: E) = filter_ports ports E) ∧
    (∀ self : Link, self.filtered_ports = filter_ports self.json.ports self.exclude) ∧
    (∀ u, vhdl_to_string_bfm (filter_ports ports E) u =
      VHDL_HEAD_COMMENT_RECORD ++ "type " ++ u ++ "_if is record\n" ++
        String.join ((filter_ports ports E).map fun n =>
          tab 1 ++ n.identifier ++ ": " ++ n.type ++ ";\n") ++
        "end record;") := by
  refine ⟨?_, ?_, ?_, ?_, ?_, ?_, ?_⟩
  · intro p hp
    exact ((mem_filter_ports ports E p).mp hp).2
  · intro p hp hni
    exact (mem_filter_ports ports E p).mpr ⟨hp, hni⟩
  · intro p _ hid hmem
    exact ((mem_filter_ports ports E p).mp hmem).2 hid
  · exact List.filter_sublist ports
  · exact fun x hx => filter_ports_unknown_exclusion ports E x hx
  · intro self
    rfl
  · intro u
    exact vhdl_to_string_bfm_eq (filter_ports ports E) u

/-- Witness for C5: `clk` is not excluded by `["sum"]` and survives the
filter on the adder example's ports. -/
theorem port_filter_correctness_witness :
    exClk ∈ exPorts ∧ ¬ exClk.identifier ∈ (["sum"] : List String) ∧
      exClk ∈ filter_ports exPorts ["sum"] :=
  ⟨by decide, by decide,
    (port_filter_correctness exPorts ["sum"]).2.1 exClk (by decide) (by decide)⟩

/-- C10: the VHDL receive routine declares its model variable with the type
name `u ++ "_bfm"`, the VHDL interface-type artifact declares the record
type under `u ++ "_if"`, and the two generated names never coincide (in
particular for every non-empty unit identifier `u`). -/
theorem model_type_and_record_type_names (ports : List Net) (u b : String) (_hu : u ≠ "") :
    vhdl_to_string_comp ports u b =
      VHDL_HEAD_COMMENT ++ "procedure recv(file e: text; file o: text) is\n" ++ tab 1 ++
        "variable row: line;\n" ++ tab 1 ++ "variable mdl: " ++ u ++ "_bfm;\nbegin\n" ++ tab 1 ++
        "if endfile(o) = false then\n" ++ tab 2 ++ "readline(o, row);\n" ++
        String.join (ports.map fun n =>
          tab 2 ++ "load(row, mdl." ++ n.identifier ++ ");\n" ++
            (tab 2 ++ "assert_eq(e, " ++ b ++ "." ++ n.identifier ++ ", mdl." ++ n.identifier ++
              ", \"" ++ n.identifier ++ "\");\n")) ++
        tab 1 ++ "end if;\nend procedure;" ∧
    vhdl_to_string_bfm ports u =
      VHDL_HEAD_COMMENT_RECORD ++ "type " ++ u ++ "_if is record\n" ++
        String.join (ports.map fun n => tab 1 ++ n.identifier ++ ": " ++ n.type ++ ";\n") ++
        "end record;" ∧
    u ++ "_bfm" ≠ u ++ "_if" := by
  refine ⟨vhdl_to_string_comp_eq ports u b, vhdl_to_string_bfm_eq ports u, ?_⟩
  intro h
  have hlen := congrArg String.length h
  rw [String.length_append, String.length_append] at hlen
  have h4 : ("_bfm" : String).length = 4 := rfl
  have h3 : ("_if" : String).length = 3 := rfl
  rw [h4, h3] at hlen
  omega

/-- Witness for C10 at the non-empty unit identifier `adder`. -/
theorem model_type_and_record_type_names_witness :
    ("adder" : String) ≠ "" ∧ "adder" ++ "_bfm" ≠ "adder" ++ "_if" :=
  ⟨by decide, (model_type_and_record_type_names [exSum] "adder" "bfm" (by decide)).2.2⟩

end Verb

namespace Verb

/-- C7: in every rendered field list and parameter list the item order is
the order of the given port/generic sequence: each renderer's output is the
fixed header, then the concatenation of one chunk per list entry *in list
order*, then the fixed footer. -/
theorem order_preservation_in_rendered_lists :
    (∀ (ports : List Net) (u : String), vhdl_to_string_bfm ports u =
      VHDL_HEAD_COMMENT_RECORD ++ "type " ++ u ++ "_if is record\n" ++
        String.join (ports.map fun n => tab 1 ++ n.identifier ++ ": " ++ n.type ++ ";\n") ++
        "end record;") ∧
    (∀ (ports generics : List Net) (u : String), sv_to_string_bfm ports generics u =
      SV_HEAD_COMMENT_INTERFACE ++ "interface " ++ u ++ "_if" ++
        sv_generate_param_decl generics ++ ";\n" ++
        String.join (ports.map fun n => tab 1 ++ n.type ++ " " ++ n.identifier ++ ";\n") ++
        "endinterface") ∧
    (∀ generics : List Net, generics ≠ [] → sv_generate_param_decl generics =
      " #(\n" ++
        commaJoin (generics.map fun n => tab 1 ++ n.mode ++ " " ++ n.type ++ " " ++ n.identifier) ++
        ")") ∧
    (∀ generics : List Net, generics ≠ [] → sv_generate_param_inst generics =
      " #(\n" ++
        commaJoin (generics.map fun n => tab 1 ++ "." ++ n.identifier ++ "(" ++ n.identifier ++ ")") ++
        ")") ∧
    (∀ (ports : List Net) (b : String), vhdl_to_string_send ports b =
      VHDL_HEAD_COMMENT ++ "procedure send(file i: text) is\n" ++ tab 1 ++
        "variable row: line;\nbegin\n" ++ tab 1 ++ "if endfile(i) = false then\n" ++ tab 2 ++
        "readline(i, row);\n" ++
        String.join (ports.map fun n => tab 2 ++ "drive(row, " ++ b ++ "." ++ n.identifier ++ ");\n") ++
        tab 1 ++ "end if;\nend procedure;") ∧
    (∀ (ports : List Net) (b : String), sv_to_string_send ports b =
      SV_HEAD_COMMENT ++ "task send(int fd);\n" ++ tab 1 ++ "automatic string line;\n" ++ tab 1 ++
        "// Read next set of input values from file\n" ++ tab 1 ++
        "if(!$feof(fd)) begin\n" ++ tab 2 ++ "$fgets(line, fd);\n" ++
        String.join (ports.map fun n =>
          tab 2 ++ "$sscanf(parse(line), \"%b\", " ++ b ++ "." ++ n.identifier ++ ");\n") ++
        tab 1 ++ "end\nendtask") ∧
    (∀ (ports : List Net) (u b : String), vhdl_to_string_comp ports u b =
      VHDL_HEAD_COMMENT ++ "procedure recv(file e: text; file o: text) is\n" ++ tab 1 ++
        "variable row: line;\n" ++ tab 1 ++ "variable mdl: " ++ u ++ "_bfm;\nbegin\n" ++ tab 1 ++
        "if endfile(o) = false then\n" ++ tab 2 ++ "readline(o, row);\n" ++
        String.join (ports.map fun n =>
          tab 2 ++ "load(row, mdl." ++ n.identifier ++ ");\n" ++
            (tab 2 ++ "assert_eq(e, " ++ b ++ "." ++ n.identifier ++ ", mdl." ++ n.identifier ++
              ", \"" ++ n.identifier ++ "\");\n")) ++
        tab 1 ++ "end if;\nend procedure;") ∧
    (∀ (ports : List Net) (u b m : String), sv_to_string_comp ports u b m =
      SV_HEAD_COMMENT ++ "task recv(int fd);\n" ++ tab 1 ++ "automatic string line;\n" ++ tab 1 ++
        "// Read expected output values from file\n" ++ tab 1 ++
        "if(!$feof(fd)) begin\n" ++ tab 2 ++ "$fgets(line, fd);\n" ++
        String.join (ports.map fun n =>
          tab 2 ++ "$sscanf(parse(line), \"%b\", " ++ m ++ "." ++ n.identifier ++ ");\n") ++
        tab 1 ++ "end\n" ++ tab 1 ++ "// Compare received ouputs with expected outputs\n" ++
        String.join (ports.map fun n =>
          tab 1 ++ "assert_eq(" ++ b ++ "." ++ n.identifier ++ ", " ++ m ++ "." ++ n.identifier ++
            ", \"" ++ n.identifier ++ "\");\n") ++
        "endtask") :=
  ⟨vhdl_to_string_bfm_eq, sv_to_string_bfm_eq, sv_generate_param_decl_eq,
    sv_generate_param_inst_eq, vhdl_to_string_send_eq, sv_to_string_send_eq,
    vhdl_to_string_comp_eq, sv_to_string_comp_eq⟩

/-- Witness for C7: the one-entry generics list gives a one-entry parameter
list. -/
theorem order_preservation_in_rendered_lists_witness :
    ([exWordSize] : List Net) ≠ [] ∧
      sv_generate_param_decl [exWordSize] =
        " #(\n" ++
          commaJoin ([exWordSize].map fun n =>
            tab 1 ++ n.mode ++ " " ++ n.type ++ " " ++ n.identifier) ++
          ")" :=
  ⟨by decide, order_preservation_in_rendered_lists.2.2.1 [exWordSize] (by decide)⟩

set_option maxRecDepth 4000 in
/-- C2 counterexample: in the VHDL receive routine for the output port
`sum` every `assert_eq` occurrence lies *before* the guard-closing
`end if;` — the suffix after the first `end if;` is exactly
`"\nend procedure;"` and contains no assertion — so the assertions are
emitted inside the end-of-file guard's scope, not outside it as the claim
states. -/
theorem vhdl_recv_asserts_inside_guard :
    strContains (vhdl_to_string_comp [exSum] "adder" "bfm") "assert_eq" = true ∧
    afterFirst ("end if;".data) (vhdl_to_string_comp [exSum] "adder" "bfm").data =
      some ("\nend procedure;".data) ∧
    infixCheck ("assert_eq".data) ("\nend procedure;".data) = false :=
  ⟨by decide, by decide, by decide⟩

/-- C2 amended: both dialects render a routine named `recv` whose body reads
one expected-output line under an end-of-file guard and, per port in port
order, loads the expected value into the model instance and emits one
`assert_eq` labeled with the port's identifier; for DialectB
(SystemVerilog) the assertions appear after the guard's `end`, while for
DialectA (VHDL) each load/assert pair sits inside the guard. -/
theorem recv_routine_shape (ports : List Net) (u b m : String) :
    vhdl_to_string_comp ports u b =
      VHDL_HEAD_COMMENT ++ "procedure recv(file e: text; file o: text) is\n" ++ tab 1 ++
        "variable row: line;\n" ++ tab 1 ++ "variable mdl: " ++ u ++ "_bfm;\nbegin\n" ++ tab 1 ++
        "if endfile(o) = false then\n" ++ tab 2 ++ "readline(o, row);\n" ++
        String.join (ports.map fun n =>
          tab 2 ++ "load(row, mdl." ++ n.identifier ++ ");\n" ++
            (tab 2 ++ "assert_eq(e, " ++ b ++ "." ++ n.identifier ++ ", mdl." ++ n.identifier ++
              ", \"" ++ n.identifier ++ "\");\n")) ++
        tab 1 ++ "end if;\nend procedure;" ∧
    sv_to_string_comp ports u b m =
      SV_HEAD_COMMENT ++ "task recv(int fd);\n" ++ tab 1 ++ "automatic string line;\n" ++ tab 1 ++
        "// Read expected output values from file\n" ++ tab 1 ++
        "if(!$feof(fd)) begin\n" ++ tab 2 ++ "$fgets(line, fd);\n" ++
        String.join (ports.map fun n =>
          tab 2 ++ "$sscanf(parse(line), \"%b\", " ++ m ++ "." ++ n.identifier ++ ");\n") ++
        tab 1 ++ "end\n" ++ tab 1 ++ "// Compare received ouputs with expected outputs\n" ++
        String.join (ports.map fun n =>
          tab 1 ++ "assert_eq(" ++ b ++ "." ++ n.identifier ++ ", " ++ m ++ "." ++ n.identifier ++
            ", \"" ++ n.identifier ++ "\");\n") ++
        "endtask" :=
  ⟨vhdl_to_string_comp_eq ports u b, sv_to_string_comp_eq ports u b m⟩

/-- C3 counterexample: for DialectA (VHDL) the interface-type artifact
ignores the generics entirely — with the non-empty generics list
`[exWordSize]` the dispatched render is the plain record (no parameter
clause), and the generic's identifier `WORD_SIZE` occurs nowhere in it. -/
theorem vhdl_interface_ignores_generics :
    ([exWordSize] : List Net) ≠ [] ∧
    render_bfm_artifact Language.vhdl exPorts [exWordSize] "adder" =
      some (vhdl_to_string_bfm exPorts "adder") ∧
    strContains (vhdl_to_string_bfm exPorts "adder") "WORD_SIZE" = false :=
  ⟨by decide, rfl, by decide⟩

/-- C3 amended: for DialectB (SystemVerilog) a non-empty generics sequence
yields a parameterized interface declaration whose parameter list follows
the generics order, one `<mode> <type> <identifier>` entry per line with an
inter-item comma and none after the last; zero generics yield the
generics-free form with no parameter clause.  For DialectA (VHDL) the
interface-type artifact carries no parameter clause regardless of the
generics: the dispatch discards them. -/
theorem interface_type_generics_rendering (ports generics : List Net) (u : String) :
    (generics ≠ [] → sv_to_string_bfm ports generics u =
      SV_HEAD_COMMENT_INTERFACE ++ "interface " ++ u ++ "_if" ++
        (" #(\n" ++
          commaJoin (generics.map fun n => tab 1 ++ n.mode ++ " " ++ n.type ++ " " ++ n.identifier) ++
          ")") ++ ";\n" ++
        String.join (ports.map fun n => tab 1 ++ n.type ++ " " ++ n.identifier ++ ";\n") ++
        "endinterface") ∧
    (sv_to_string_bfm ports [] u =
      SV_HEAD_COMMENT_INTERFACE ++ "interface " ++ u ++ "_if" ++ ";\n" ++
        String.join (ports.map fun n => tab 1 ++ n.type ++ " " ++ n.identifier ++ ";\n") ++
        "endinterface") ∧
    (render_bfm_artifact Language.vhdl ports generics u = some (vhdl_to_string_bfm ports u)) := by
  refine ⟨?_, ?_, rfl⟩
  · intro hg
    rw [sv_to_string_bfm_eq, sv_generate_param_decl_eq generics hg]
  · rw [sv_to_string_bfm_eq]
    simp [sv_generate_param_decl_nil, String.empty_append, String.append_assoc]

/-- Witness for C3 at the one-generic SystemVerilog adder. -/
theorem interface_type_generics_rendering_witness :
    ([exWordSize] : List Net) ≠ [] ∧
      sv_to_string_bfm exPorts [exWordSize] "adder" =
        SV_HEAD_COMMENT_INTERFACE ++ "interface " ++ "adder" ++ "_if" ++
          (" #(\n" ++
            commaJoin ([exWordSize].map fun n =>
              tab 1 ++ n.mode ++ " " ++ n.type ++ " " ++ n.identifier) ++
            ")") ++ ";\n" ++
          String.join (exPorts.map fun n => tab 1 ++ n.type ++ " " ++ n.identifier ++ ";\n") ++
          "endinterface" :=
  ⟨by decide, (interface_type_generics_rendering exPorts [exWordSize] "adder").1 (by decide)⟩

end Verb

namespace Verb

set_option maxRecDepth 4000 in
/-- C4 counterexample: on the spec's adder example a list-only request
prints two labeled sections (`input vectors order:` / `output vectors
order:` header lines, identifier lines with two leading spaces, trailing
blank lines), not the two bare identifier lines `clk a` and `sum`. -/
theorem list_only_output_not_two_bare_lines :
    exListLink.execute =
      ExecResult.ok "input vectors order:\n  clk a\n\noutput vectors order:\n  sum\n\n" ∧
    exListLink.execute ≠ ExecResult.ok "clk a\nsum" ∧
    exListLink.execute ≠ ExecResult.ok "clk a\nsum\n" :=
  ⟨by decide, by decide, by decide⟩

/-- C4 amended: when list-only is selected, `Link::execute` prints — for any
other selector values — exactly the port listing: an `input vectors order:`
header line, a line with the ordered input-direction filtered identifiers
(each preceded by a space, after one leading space), a blank line, then the
same two lines for the output direction and a final blank line; no other
artifact is rendered. -/
theorem list_only_prints_port_listing (self : Link) (h : self.list = true) :
    self.execute = ExecResult.ok
      ("input vectors order:\n " ++
        String.join ((self.filtered_ports.filter fun n => n.is_input).map fun n =>
          " " ++ n.identifier) ++
        "\n\n" ++
        ("output vectors order:\n " ++
          String.join ((self.filtered_ports.filter fun n => n.is_output).map fun n =>
            " " ++ n.identifier) ++
          "\n\n")) := by
  simp only [Link.execute]
  rw [if_pos h]
  rfl

/-- Witness for C4 (amended) at the adder list-only request. -/
theorem list_only_prints_port_listing_witness :
    exListLink.list = true ∧ exListLink.execute = ExecResult.ok
      ("input vectors order:\n " ++
        String.join ((exListLink.filtered_ports.filter fun n => n.is_input).map fun n =>
          " " ++ n.identifier) ++
        "\n\n" ++
        ("output vectors order:\n " ++
          String.join ((exListLink.filtered_ports.filter fun n => n.is_output).map fun n =>
            " " ++ n.identifier) ++
          "\n\n")) :=
  ⟨rfl, list_only_prints_port_listing exListLink rfl⟩

/-- C6: the send routine is rendered over exactly the input-direction
filtered ports and the receive routine over exactly the output-direction
filtered ports: every port handed to the send renderer is an input (and not
an output), dually for receive, any filtered port of the other direction is
skipped, and the per-port drive/load lines of the routines range over
exactly those direction-restricted sequences. -/
theorem direction_partitioning (self : Link) :
    (∀ p ∈ self.filtered_ports.filter (fun n => n.is_input),
      p.is_input = true ∧ p.is_output = false) ∧
    (∀ p ∈ self.filtered_ports.filter (fun n => n.is_output),
      p.is_output = true ∧ p.is_input = false) ∧
    (∀ p ∈ self.filtered_ports, p.is_output = true →
      ¬ p ∈ self.filtered_ports.filter (fun n => n.is_input)) ∧
    (∀ p ∈ self.filtered_ports, p.is_input = true →
      ¬ p ∈ self.filtered_ports.filter (fun n => n.is_output)) ∧
    (self.send = true → self.send_section =
      [render_send_artifact self.json.language
        (self.filtered_ports.filter fun n => n.is_input) "bfm"]) ∧
    (self.comp = true → self.comp_section =
      [render_comp_artifact self.json.language
        (self.filtered_ports.filter fun n => n.is_output) self.json.identifier "bfm" "mdl"]) ∧
    (∀ b, vhdl_to_string_send (self.filtered_ports.filter fun n => n.is_input) b =
      VHDL_HEAD_COMMENT ++ "procedure send(file i: text) is\n" ++ tab 1 ++
        "variable row: line;\nbegin\n" ++ tab 1 ++ "if endfile(i) = false then\n" ++ tab 2 ++
        "readline(i, row);\n" ++
        String.join ((self.filtered_ports.filter fun n => n.is_input).map fun n =>
          tab 2 ++ "drive(row, " ++ b ++ "." ++ n.identifier ++ ");\n") ++
        tab 1 ++ "end if;\nend procedure;") ∧
    (∀ u b, vhdl_to_string_comp (self.filtered_ports.filter fun n => n.is_output) u b =
      VHDL_HEAD_COMMENT ++ "procedure recv(file e: text; file o: text) is\n" ++ tab 1 ++
        "variable row: line;\n" ++ tab 1 ++ "variable mdl: " ++ u ++ "_bfm;\nbegin\n" ++ tab 1 ++
        "if endfile(o) = false then\n" ++ tab 2 ++ "readline(o, row);\n" ++
        String.join ((self.filtered_ports.filter fun n => n.is_output).map fun n =>
          tab 2 ++ "load(row, mdl." ++ n.identifier ++ ");\n" ++
            (tab 2 ++ "assert_eq(e, " ++ b ++ "." ++ n.identifier ++ ", mdl." ++ n.identifier ++
              ", \"" ++ n.identifier ++ "\");\n")) ++
        tab 1 ++ "end if;\nend procedure;") := by
  refine ⟨?_, ?_, ?_, ?_, ?_, ?_, ?_, ?_⟩
  · intro p hp
    have h1 := (List.mem_filter.mp hp).2
    exact ⟨h1, input_not_output p h1⟩
  · intro p hp
    have h1 := (List.mem_filter.mp hp).2
    exact ⟨h1, output_not_input p h1⟩
  · intro p _ ho hmem
    have h1 := (List.mem_filter.mp hmem).2
    rw [input_not_output p h1] at ho
    exact absurd ho (by decide)
  · intro p _ hi hmem
    have h1 := (List.mem_filter.mp hmem).2
    rw [output_not_input p h1] at hi
    exact absurd hi (by decide)
  · intro h
    simp only [Link.send_section]
    rw [if_pos h]
  · intro h
    simp only [Link.comp_section]
    rw [if_pos h]
  · intro b
    exact vhdl_to_string_send_eq _ b
  · intro u b
    exact vhdl_to_string_comp_eq _ u b

/-- Witness for C6 at the `--if --send` adder request. -/
theorem direction_partitioning_witness :
    exBfmSendLink.send = true ∧
      exBfmSendLink.send_section =
        [render_send_artifact exBfmSendLink.json.language
          (exBfmSendLink.filtered_ports.filter fun n => n.is_input) "bfm"] :=
  ⟨rfl, (direction_partitioning exBfmSendLink).2.2.2.2.1 rfl⟩

/-- C8: when every selected artifact renders (a supported dialect), the
output printed by `Link::execute` is the artifact texts joined with exactly
one blank line between consecutive artifacts — no separator before the
first or after the last one — with each line newline-terminated (the final
`"\n"` terminates the last artifact's final line); no artifact text itself
is empty, starts with a newline, or carries a trailing newline of its own. -/
theorem artifact_blank_line_separation (self : Link) (texts : List String)
    (h : self.artifact_list = texts.map some) (hne : texts ≠ [])
    (hl : self.list = false) (hU : headChar? self.json.identifier ≠ some '\n') :
    self.execute = ExecResult.ok (sepJoin "\n\n" texts ++ "\n") ∧
      ∀ t ∈ texts, t.data ≠ [] ∧ lastChar? t ≠ some '\n' ∧ headChar? t ≠ some '\n' := by
  constructor
  · simp only [Link.execute, hl]
    rw [if_neg (by simp), h, print_artifacts_start texts hne]
  · intro t ht
    have hmem : some t ∈ self.artifact_list := by
      rw [h]
      exact List.mem_map_of_mem some ht
    exact artifact_text_boundaries self hU t hmem

/-- Witness for C8 at the `--if --send` adder request (two artifacts). -/
theorem artifact_blank_line_separation_witness :
    exBfmSendLink.artifact_list = exTexts.map some ∧ exTexts ≠ [] ∧
      exBfmSendLink.list = false ∧ headChar? exBfmSendLink.json.identifier ≠ some '\n' ∧
      exBfmSendLink.execute = ExecResult.ok (sepJoin "\n\n" exTexts ++ "\n") :=
  ⟨rfl, by decide, rfl, by decide,
    (artifact_blank_line_separation exBfmSendLink exTexts rfl (by decide) rfl (by decide)).1⟩

/-- C9: for every invocation, whatever the caller supplied, the send and
receive sections call the renderers with the instance name fixed to the
literal `"bfm"` and (for the SystemVerilog receive routine) the model
instance fixed to `"mdl"`; the routines' references are rendered from those
literals. -/
theorem hardcoded_instance_names (self : Link) :
    (self.send = true → self.send_section =
      [render_send_artifact self.json.language
        (self.filtered_ports.filter fun n => n.is_input) "bfm"]) ∧
    (self.comp = true → self.comp_section =
      [render_comp_artifact self.json.language
        (self.filtered_ports.filter fun n => n.is_output) self.json.identifier "bfm" "mdl"]) ∧
    (∀ ports : List Net, vhdl_to_string_send ports "bfm" =
      VHDL_HEAD_COMMENT ++ "procedure send(file i: text) is\n" ++ tab 1 ++
        "variable row: line;\nbegin\n" ++ tab 1 ++ "if endfile(i) = false then\n" ++ tab 2 ++
        "readline(i, row);\n" ++
        String.join (ports.map fun n =>
          tab 2 ++ "drive(row, " ++ "bfm" ++ "." ++ n.identifier ++ ");\n") ++
        tab 1 ++ "end if;\nend procedure;") ∧
    (∀ (ports : List Net) (u : String), sv_to_string_comp ports u "bfm" "mdl" =
      SV_HEAD_COMMENT ++ "task recv(int fd);\n" ++ tab 1 ++ "automatic string line;\n" ++ tab 1 ++
        "// Read expected output values from file\n" ++ tab 1 ++
        "if(!$feof(fd)) begin\n" ++ tab 2 ++ "$fgets(line, fd);\n" ++
        String.join (ports.map fun n =>
          tab 2 ++ "$sscanf(parse(line), \"%b\", " ++ "mdl" ++ "." ++ n.identifier ++ ");\n") ++
        tab 1 ++ "end\n" ++ tab 1 ++ "// Compare received ouputs with expected outputs\n" ++
        String.join (ports.map fun n =>
          tab 1 ++ "assert_eq(" ++ "bfm" ++ "." ++ n.identifier ++ ", " ++ "mdl" ++
            "." ++ n.identifier ++ ", \"" ++ n.identifier ++ "\");\n") ++
        "endtask") := by
  refine ⟨?_, ?_, ?_, ?_⟩
  · intro h
    simp only [Link.send_section]
    rw [if_pos h]
  · intro h
    simp only [Link.comp_section]
    rw [if_pos h]
  · intro ports
    exact vhdl_to_string_send_eq ports "bfm"
  · intro ports u
    exact sv_to_string_comp_eq ports u "bfm" "mdl"

/-- Witness for C9 at the `--recv` adder request. -/
theorem hardcoded_instance_names_witness :
    exCompLink.comp = true ∧
      exCompLink.comp_section =
        [render_comp_artifact exCompLink.json.language
          (exCompLink.filtered_ports.filter fun n => n.is_output)
          exCompLink.json.identifier "bfm" "mdl"] :=
  ⟨rfl, (hardcoded_instance_names exCompLink).2.1 rfl⟩

end Verb
